import Mathlib

/-!
Shallow embedding of `src/rouchu.py`, a Modbus TCP client for a pneumatic
gripper's pressure subsystem.

Conventions of the embedding:
* Python `int` becomes `Int`.  Python's `x >> 8` on an `int` is an arithmetic
  (floor) shift and `x & 0xFF` is a mask on the infinite two's-complement
  representation; for the positive divisor 256 these coincide with Lean's
  `Int` division `x / 256` (Euclidean = floor for positive divisor) and
  `x % 256` (always in `[0, 256)`), which also match Python's `//` and `%`.
* Python `bytes` becomes `List Int` whose elements are in `[0, 255]` at every
  construction site in the source (each element ends in `& 0xFF`, i.e. `% 256`,
  or is a small constant).
* A Python function that can raise becomes a function into `Except RouchuError`;
  the constructors of `RouchuError` record which Python exception is raised
  (`ValueError` with its message, `IndexError` from indexing an empty sequence,
  `AttributeError` from accessing a missing attribute) together with the
  decoder-level failures described by the protocol (Modbus exception responses
  and malformed frames).
* The transport (a connected `ModbusTcpClient` socket) becomes a pure function
  `List Int → List Int` from the request bytes to the response bytes returned
  by the single `recv` call.
-/

namespace Rouchu

/-- Error values of the embedding.  `valueError` and `indexError` and
`attributeError` model the Python exceptions raised by `src/rouchu.py` itself;
`modbusException` and `malformedResponse` model the failures of response
decoding (the spec's `ModbusException(code)` and `MalformedResponse`).
The spec's `DecodeMismatch` is realized in the code as
`ValueError ("Invalid response message")`, and the spec's `EmptyResult` as the
`IndexError` raised by `bits[0]` / `registers[0]` on an empty sequence. -/
inductive RouchuError where
  | valueError : String → RouchuError
  | indexError : RouchuError
  | attributeError : RouchuError
  | modbusException : Int → RouchuError
  | malformedResponse : RouchuError
deriving DecidableEq, Repr

/-- Decoded response messages.  `registers` models a pymodbus response object
carrying a `.registers` attribute, `bits` one carrying `.bits`, and
`echoedValue` one carrying `.value` (write-single-register and
write-single-coil echo responses).  This is the spec's `DecodedResult`. -/
inductive DecodedResult where
  | registers : List Int → DecodedResult
  | bits : List Bool → DecodedResult
  | echoedValue : Int → DecodedResult
deriving DecidableEq, Repr

instance {ε α : Type} [DecidableEq ε] [DecidableEq α] : DecidableEq (Except ε α) :=
  fun x y =>
    match x, y with
    | .ok u, .ok v =>
      if h : u = v then .isTrue (by rw [h]) else .isFalse (by simp [h])
    | .error u, .error v =>
      if h : u = v then .isTrue (by rw [h]) else .isFalse (by simp [h])
    | .ok _, .error _ => .isFalse (by simp)
    | .error _, .ok _ => .isFalse (by simp)

/-- Constant from src/rouchu.py line 5. -/
def TRANSACTION_ID : Int := 0x0000

/-- Constant from src/rouchu.py line 6. -/
def PROTOCOL_ID : Int := 0x0000

/-- Constant from src/rouchu.py line 7. -/
def UNIT_ID : Int := 0x01

/-- Constant from src/rouchu.py line 8. -/
def LENGTH : Int := 0x0006

/-- Embedding of `unsigned_to_signed_16bit` (src/rouchu.py lines 10-18):
raises `ValueError` when `value > 0xFFFF`, otherwise returns
`value - 0x10000` when `value > 0x7FFF` and `value` unchanged otherwise.
There is no lower-bound check in the source. -/
def unsigned_to_signed_16bit (value : Int) : Except RouchuError Int :=
  if value > 0xFFFF then
    .error (.valueError ("Value exceeds 16-bit unsigned integer range"))
  else if value > 0x7FFF then .ok (value - 0x10000) else .ok value

/-- Embedding of `build_mbap_header` (src/rouchu.py lines 20-34): big-endian
bytes of the three u16 fields followed by the unit id byte.  Python's
`(x >> 8) & 0xFF` is `(x / 256) % 256` and `x & 0xFF` is `x % 256`. -/
def build_mbap_header (transaction_id protocol_id length unit_id : Int) :
    List Int :=
  [(transaction_id / 256) % 256, transaction_id % 256,
   (protocol_id / 256) % 256, protocol_id % 256,
   (length / 256) % 256, length % 256,
   unit_id]

/-- Registers from the payload bytes of a read-holding-registers response:
consecutive big-endian u16 pairs. -/
def regsFromBytes : List Int → List Int
  | hi :: lo :: rest => (hi * 256 + lo) :: regsFromBytes rest
  | _ => []

/-- Bits of one payload byte of a read-discrete-inputs response, unpacked
least-significant-bit first. -/
def byteToBits (b : Int) : List Bool :=
  (List.range 8).map (fun j => b / 2 ^ j % 2 == 1)

/-- Bit sequence of a read-discrete-inputs payload. -/
def bitsFromBytes (body : List Int) : List Bool :=
  body.flatMap byteToBits

/-- Modelled from the spec: the decoding of a response PDU performed by the
external pymodbus `ClientDecoder` (src/rouchu.py lines 49-50 delegate to the
`pymodbus.factory` library, whose code is not part of this repository).
Following spec section 4.1: a function code with the Modbus exception bit
(`0x80`) set fails with `ModbusException` carrying the exception code byte;
function code `0x03` yields `Registers` (one u16 per big-endian byte pair,
count given by the byte-count field, which must agree with the received
length); `0x02` yields `Bits` (byte-packed, unpacked LSB-first); `0x06` and
`0x05` yield `EchoedValue` with the echoed u16 value field; anything else, or
a truncated PDU, is a malformed response. -/
def decodePdu (pdu : List Int) : Except RouchuError DecodedResult :=
  match pdu with
  | [] => .error .malformedResponse
  | fc :: rest =>
    if 0x80 ≤ fc then
      match rest with
      | code :: _ => .error (.modbusException code)
      | [] => .error .malformedResponse
    else if fc = 0x03 then
      match rest with
      | n :: body =>
        if body.length = n.toNat then .ok (.registers (regsFromBytes body))
        else .error .malformedResponse
      | [] => .error .malformedResponse
    else if fc = 0x02 then
      match rest with
      | n :: body =>
        if body.length = n.toNat then .ok (.bits (bitsFromBytes body))
        else .error .malformedResponse
      | [] => .error .malformedResponse
    else if fc = 0x06 ∨ fc = 0x05 then
      match rest with
      | _aHi :: _aLo :: vHi :: vLo :: _ => .ok (.echoedValue (vHi * 256 + vLo))
      | _ => .error .malformedResponse
    else .error .malformedResponse

/-- Embedding of `send_request` (src/rouchu.py lines 36-52): send the request,
receive the response bytes, drop the 7-byte MBAP header and decode the
remaining PDU.  The transport is the pure function from request bytes to the
bytes returned by the single `recv` call. -/
def send_request (transport : List Int → List Int) (request : List Int) :
    Except RouchuError DecodedResult :=
  decodePdu ((transport request).drop 7)

/-- Request bytes built by `get_pressure` (src/rouchu.py lines 60-73):
function code 0x03, starting address 0x0302, quantity 0x0002. -/
def get_pressure_request : List Int :=
  build_mbap_header TRANSACTION_ID PROTOCOL_ID LENGTH UNIT_ID ++
    [0x03,
     ((0x0302 : Int) / 256) % 256, (0x0302 : Int) % 256,
     ((0x0002 : Int) / 256) % 256, (0x0002 : Int) % 256]

/-- Embedding of `get_pressure` (src/rouchu.py lines 54-81): send the
read-holding-registers request; if the decoded message has registers, return
the signed conversion of `registers[0]` (an `IndexError` if the register list
is empty), otherwise raise `ValueError ("Invalid response message")`. -/
def get_pressure (transport : List Int → List Int) : Except RouchuError Int := do
  let response_message ← send_request transport get_pressure_request
  match response_message with
  | .registers regs =>
    match regs with
    | [] => .error .indexError
    | pressure :: _ => unsigned_to_signed_16bit pressure
  | _ => .error (.valueError ("Invalid response message"))

/-- Register address selected by `set_pressure` (src/rouchu.py line 92). -/
def set_pressure_address (style : String) : Int :=
  if style = "Positive" then 0x0306 else 0x0307

/-- Clamped pressure value computed by `set_pressure` (src/rouchu.py line 95):
`max(10, min(300, v))` for the Positive branch, `max(-80, min(-10, v))`
otherwise. -/
def set_pressure_clamped (pressure_value : Int) (style : String) : Int :=
  if style = "Positive" then max 10 (min 300 pressure_value)
  else max (-80) (min (-10) pressure_value)

/-- Request bytes built by `set_pressure` (src/rouchu.py lines 91-108):
function code 0x06, style-selected address, clamped value split into
big-endian high/low bytes. -/
def set_pressure_request (pressure_value : Int) (style : String) : List Int :=
  build_mbap_header TRANSACTION_ID PROTOCOL_ID LENGTH UNIT_ID ++
    [0x06,
     (set_pressure_address style / 256) % 256, set_pressure_address style % 256,
     (set_pressure_clamped pressure_value style / 256) % 256,
     set_pressure_clamped pressure_value style % 256]

/-- Embedding of `set_pressure` (src/rouchu.py lines 83-112): send the
write-single-register request for the clamped value and return the signed
conversion of the response's `.value` attribute (an `AttributeError` when the
decoded message has no such attribute: the source has no `hasattr` check
here). -/
def set_pressure (transport : List Int → List Int) (pressure_value : Int)
    (style : String := "Positive") : Except RouchuError Int := do
  let response_message ← send_request transport
      (set_pressure_request pressure_value style)
  match response_message with
  | .echoedValue v => unsigned_to_signed_16bit v
  | _ => .error .attributeError

/-- Input address selected by `is_pressure_launched` (src/rouchu.py line 122). -/
def is_pressure_launched_address (style : String) : Int :=
  if style = "Positive" then 0x0200 else 0x0201

/-- Request bytes built by `is_pressure_launched` (src/rouchu.py
lines 121-132): function code 0x02, style-selected address, quantity 0x0001. -/
def is_pressure_launched_request (style : String) : List Int :=
  build_mbap_header TRANSACTION_ID PROTOCOL_ID LENGTH UNIT_ID ++
    [0x02,
     (is_pressure_launched_address style / 256) % 256,
     is_pressure_launched_address style % 256,
     ((0x0001 : Int) / 256) % 256, (0x0001 : Int) % 256]

/-- Embedding of `is_pressure_launched` (src/rouchu.py lines 114-139): send
the read-discrete-inputs request; if the decoded message has bits, return
`bits[0]` (an `IndexError` when the bit sequence is empty), otherwise raise
`ValueError ("Invalid response message")`. -/
def is_pressure_launched (transport : List Int → List Int)
    (style : String := "Positive") : Except RouchuError Bool := do
  let response_message ← send_request transport
      (is_pressure_launched_request style)
  match response_message with
  | .bits bs =>
    match bs with
    | [] => .error .indexError
    | b :: _ => .ok b
  | _ => .error (.valueError ("Invalid response message"))

/-- Coil address selected by `launch_pressure` (src/rouchu.py line 150). -/
def launch_pressure_address (style : String) : Int :=
  if style = "Positive" then 0x0100 else 0x0101

/-- Coil value selected by `launch_pressure` (src/rouchu.py line 151):
0xFF00 when `state` equals the exact string ON, 0x0000 otherwise. -/
def launch_pressure_value (state : String) : Int :=
  if state = "ON" then 0xFF00 else 0x0000

/-- Request bytes built by `launch_pressure` (src/rouchu.py lines 149-159):
function code 0x05, style-selected address, state-selected coil value. -/
def launch_pressure_request (state style : String) : List Int :=
  build_mbap_header TRANSACTION_ID PROTOCOL_ID LENGTH UNIT_ID ++
    [0x05,
     (launch_pressure_address style / 256) % 256,
     launch_pressure_address style % 256,
     (launch_pressure_value state / 256) % 256,
     launch_pressure_value state % 256]

/-- Embedding of `launch_pressure` (src/rouchu.py lines 141-163): send the
write-single-coil request and return the response's `.value` attribute
directly (an `AttributeError` when the decoded message has no such
attribute; no `hasattr` check in the source). -/
def launch_pressure (transport : List Int → List Int)
    (state : String := "ON") (style : String := "Positive") :
    Except RouchuError Int := do
  let response_message ← send_request transport
      (launch_pressure_request state style)
  match response_message with
  | .echoedValue v => .ok v
  | _ => .error .attributeError

end Rouchu

namespace Rouchu

/-- Helper: the MBAP header built from the module constants is the concrete
7-byte sequence 00 00 00 00 00 06 01. -/
theorem header_concrete :
    build_mbap_header TRANSACTION_ID PROTOCOL_ID LENGTH UNIT_ID =
      [0, 0, 0, 0, 0, 6, 1] := by decide

/-- Helper: bind on a successful `Except` computation applies the
continuation. -/
theorem except_bind_ok {α β : Type} (a : α) (f : α → Except RouchuError β) :
    (Except.ok a >>= f) = f a := rfl

/-- Helper: for a clamped pressure value in `[-80, 300]`, splitting into
big-endian high/low bytes and signed-converting the resulting u16 recovers
the value. -/
theorem u2s_bytes (c : Int) (h1 : -80 ≤ c) (h2 : c ≤ 300) :
    unsigned_to_signed_16bit ((c / 256) % 256 * 256 + c % 256) = .ok c := by
  unfold unsigned_to_signed_16bit
  split_ifs with hA hB
  · exfalso; omega
  · congr 1; omega
  · congr 1; omega

/-- Helper: the decoder maps a write-single-register or write-single-coil
echo PDU to `echoedValue` of its big-endian value field. -/
theorem decode_write_pdu (fc a1 a2 b1 b2 : Int) (hfc : fc = 0x06 ∨ fc = 0x05) :
    decodePdu (fc :: a1 :: a2 :: b1 :: b2 :: []) =
      .ok (.echoedValue (b1 * 256 + b2)) := by
  rcases hfc with h | h <;> subst h <;> simp [decodePdu]

/-- Helper: the clamped value always lies in `[-80, 300]`, whatever the style. -/
theorem clamp_bounds (v : Int) (style : String) :
    -80 ≤ set_pressure_clamped v style ∧ set_pressure_clamped v style ≤ 300 := by
  unfold set_pressure_clamped
  split_ifs <;> constructor <;> omega

/-- Helper: the coil value selected by `launch_pressure` survives the
byte-split round trip (it is 0xFF00 or 0x0000, both 16-bit). -/
theorem launch_value_bytes (state : String) :
    (launch_pressure_value state / 256) % 256 * 256 +
      launch_pressure_value state % 256 = launch_pressure_value state := by
  unfold launch_pressure_value
  split_ifs <;> decide

/-- C1: for every requested pressure (any integer), `set_pressure` clamps the
request into `[10, 300]` for style Positive and into `[-80, -10]` for style
Negative before transmission; the clamping is a total function (no error on
out-of-range input) and the transmitted value bytes of the request are
exactly the big-endian bytes of the clamped value.  In particular Positive
500 transmits 300 (bytes 01 2C), Positive -50 transmits 10 (bytes 00 0A),
Negative 5 transmits -10 (bytes FF F6) and Negative -200 transmits -80
(bytes FF B0). -/
theorem C1_set_pressure_clamps_before_transmission :
    (∀ v : Int, 10 ≤ set_pressure_clamped v ("Positive") ∧
      set_pressure_clamped v ("Positive") ≤ 300) ∧
    (∀ v : Int, -80 ≤ set_pressure_clamped v ("Negative") ∧
      set_pressure_clamped v ("Negative") ≤ -10) ∧
    (∀ (v : Int) (style : String), (set_pressure_request v style).drop 10 =
      [(set_pressure_clamped v style / 256) % 256,
       set_pressure_clamped v style % 256]) ∧
    set_pressure_clamped 500 ("Positive") = 300 ∧
    set_pressure_clamped (-50) ("Positive") = 10 ∧
    set_pressure_clamped 5 ("Negative") = -10 ∧
    set_pressure_clamped (-200) ("Negative") = -80 ∧
    (set_pressure_request 500 ("Positive")).drop 10 = [0x01, 0x2C] ∧
    (set_pressure_request (-50) ("Positive")).drop 10 = [0x00, 0x0A] ∧
    (set_pressure_request 5 ("Negative")).drop 10 = [0xFF, 0xF6] ∧
    (set_pressure_request (-200) ("Negative")).drop 10 = [0xFF, 0xB0] := by
  refine ⟨?_, ?_, ?_, by decide, by decide, by decide, by decide,
    by decide, by decide, by decide, by decide⟩
  · intro v; unfold set_pressure_clamped
    simp only [if_pos rfl, Int.max_def, Int.min_def]
    split_ifs <;> constructor <;> omega
  · intro v
    unfold set_pressure_clamped
    rw [if_neg (by decide : ¬ ("Negative" : String) = "Positive")]
    simp only [Int.max_def, Int.min_def]
    split_ifs <;> constructor <;> omega
  · intro v style
    unfold set_pressure_request
    rw [header_concrete]
    rfl

/-- C2: on the u16 domain `unsigned_to_signed_16bit` is total: every value
in `[0, 0x7FFF]` is returned unchanged and every value in `[0x8000, 0xFFFF]`
is returned as `value - 0x10000`. -/
theorem C2_unsigned_to_signed_16bit_ranges (v : Int) :
    (0 ≤ v → v ≤ 0x7FFF → unsigned_to_signed_16bit v = .ok v) ∧
    (0x8000 ≤ v → v ≤ 0xFFFF → unsigned_to_signed_16bit v = .ok (v - 0x10000)) := by
  unfold unsigned_to_signed_16bit
  constructor <;> intro h1 h2 <;> split_ifs <;> first | rfl | (exfalso; omega)

/-- Witness for C2 at the concrete inputs 5 and 0xFFCE. -/
theorem C2_unsigned_to_signed_16bit_ranges_witness :
    unsigned_to_signed_16bit 5 = .ok 5 ∧
    unsigned_to_signed_16bit 0xFFCE = .ok (0xFFCE - 0x10000) :=
  ⟨(C2_unsigned_to_signed_16bit_ranges 5).1 (by decide) (by decide),
   (C2_unsigned_to_signed_16bit_ranges 0xFFCE).2 (by decide) (by decide)⟩

/-- C3: when the response PDU carries function code 0x83 (0x03 with the
Modbus exception bit set), `get_pressure` fails with `ModbusException`
carrying the exception code byte, and never returns a decoded register
value, whatever the exception code. -/
theorem C3_get_pressure_modbus_exception (code : Int) :
    get_pressure (fun _ => [0, 0, 0, 0, 0, 6, 1, 0x83, code]) =
      .error (.modbusException code) ∧
    (∀ x : Int, get_pressure (fun _ => [0, 0, 0, 0, 0, 6, 1, 0x83, code]) ≠ .ok x) := by
  constructor
  · rfl
  · intro x h
    rw [show get_pressure (fun _ => [0, 0, 0, 0, 0, 6, 1, 0x83, code]) =
      .error (.modbusException code) from rfl] at h
    exact Except.noConfusion h

/-- Witness for C3 at exception code 2 (illegal data address). -/
theorem C3_get_pressure_modbus_exception_witness :
    get_pressure (fun _ => [0, 0, 0, 0, 0, 6, 1, 0x83, 2]) =
      .error (.modbusException 2) ∧
    get_pressure (fun _ => [0, 0, 0, 0, 0, 6, 1, 0x83, 2]) ≠ .ok 0 :=
  ⟨(C3_get_pressure_modbus_exception 2).1,
   (C3_get_pressure_modbus_exception 2).2 0⟩

/-- C4: given any decoded response message, `is_pressure_launched` fails with
the decode-mismatch error (`ValueError` with message Invalid response
message, the spec's `DecodeMismatch`) when the message is not a `bits`
message; on a `bits` message it fails with the distinguishable `IndexError`
(the spec's `EmptyResult`) when the bit sequence is empty and returns
`bits[0]` otherwise. -/
theorem C4_is_pressure_launched_decode_errors (t : List Int → List Int)
    (style : String) (r : DecodedResult)
    (h : send_request t (is_pressure_launched_request style) = .ok r) :
    (∀ regs, r = .registers regs → is_pressure_launched t style =
        .error (.valueError ("Invalid response message"))) ∧
    (∀ v, r = .echoedValue v → is_pressure_launched t style =
        .error (.valueError ("Invalid response message"))) ∧
    (r = .bits [] → is_pressure_launched t style = .error .indexError) ∧
    (∀ b bs, r = .bits (b :: bs) → is_pressure_launched t style = .ok b) := by
  refine ⟨?_, ?_, ?_, ?_⟩ <;> intros <;> subst_vars <;>
    (unfold is_pressure_launched; rw [h, except_bind_ok])

/-- Witness for C4: a one-byte bit payload 0x01 decodes to a bit sequence
headed by true and yields true; a zero-byte bit payload decodes to the empty
bit sequence and yields the empty-result error. -/
theorem C4_is_pressure_launched_decode_errors_witness :
    is_pressure_launched (fun _ => [0, 0, 0, 0, 0, 6, 1, 0x02, 1, 1]) ("Positive") =
      .ok true ∧
    is_pressure_launched (fun _ => [0, 0, 0, 0, 0, 6, 1, 0x02, 0]) ("Positive") =
      .error .indexError := by
  constructor
  · exact (C4_is_pressure_launched_decode_errors
      (fun _ => [0, 0, 0, 0, 0, 6, 1, 0x02, 1, 1]) ("Positive")
      (.bits [true, false, false, false, false, false, false, false])
      (by decide)).2.2.2 true [false, false, false, false, false, false, false] rfl
  · exact (C4_is_pressure_launched_decode_errors
      (fun _ => [0, 0, 0, 0, 0, 6, 1, 0x02, 0]) ("Positive")
      (.bits []) (by decide)).2.2.1 rfl

/-- C5: `get_pressure` sends a read-holding-registers request (function code
0x03) for 2 registers starting at address 0x0302, uses only `registers[0]`
of the decoded response (the rest of the register list is irrelevant) and
returns its signed 16-bit conversion; a response whose first register is
0xFFCE yields -50. -/
theorem C5_get_pressure_register0 :
    get_pressure_request = [0, 0, 0, 0, 0, 6, 1, 0x03, 0x03, 0x02, 0x00, 0x02] ∧
    (∀ (t : List Int → List Int) (p : Int) (rest : List Int),
      send_request t get_pressure_request = .ok (.registers (p :: rest)) →
      get_pressure t = unsigned_to_signed_16bit p) ∧
    (∀ t : List Int → List Int,
      send_request t get_pressure_request =
        .ok (.registers ((0xFFCE : Int) :: [(0 : Int)])) →
      get_pressure t = .ok (-50)) := by
  refine ⟨by decide, ?_, ?_⟩
  · intro t p rest h
    unfold get_pressure
    rw [h, except_bind_ok]
  · intro t h
    unfold get_pressure
    rw [h, except_bind_ok]
    decide

/-- Witness for C5: a concrete response carrying registers 0xFFCE and 0x0000
makes `get_pressure` return -50. -/
theorem C5_get_pressure_register0_witness :
    get_pressure (fun _ => [0, 0, 0, 0, 0, 6, 1, 0x03, 4, 0xFF, 0xCE, 0, 0]) =
      .ok (-50) :=
  C5_get_pressure_register0.2.2
    (fun _ => [0, 0, 0, 0, 0, 6, 1, 0x03, 4, 0xFF, 0xCE, 0, 0]) (by decide)

/-- C6: every request transmitted by the four operations is exactly 12
bytes: the fixed 7-byte MBAP header 00 00 00 00 00 06 01 (transaction id 0,
protocol id 0, length 6, unit id 1) followed by a 5-byte PDU, for every
argument; the length field is the fixed constant 6. -/
theorem C6_request_framing :
    build_mbap_header 0 0 6 1 = [0x00, 0x00, 0x00, 0x00, 0x00, 0x06, 0x01] ∧
    LENGTH = 6 ∧
    (get_pressure_request.length = 12 ∧
      get_pressure_request.take 7 = [0, 0, 0, 0, 0, 6, 1]) ∧
    (∀ (v : Int) (style : String), (set_pressure_request v style).length = 12 ∧
      (set_pressure_request v style).take 7 = [0, 0, 0, 0, 0, 6, 1]) ∧
    (∀ style : String, (is_pressure_launched_request style).length = 12 ∧
      (is_pressure_launched_request style).take 7 = [0, 0, 0, 0, 0, 6, 1]) ∧
    (∀ state style : String, (launch_pressure_request state style).length = 12 ∧
      (launch_pressure_request state style).take 7 = [0, 0, 0, 0, 0, 6, 1]) := by
  refine ⟨by decide, rfl, ⟨by decide, by decide⟩, ?_, ?_, ?_⟩
  · intro v style; exact ⟨rfl, rfl⟩
  · intro style; exact ⟨rfl, rfl⟩
  · intro state style; exact ⟨rfl, rfl⟩

/-- C7: round trip for echoed values: when the transport echoes the request
back unchanged (so the write-single-register response carries exactly the
transmitted value field), `set_pressure` returns precisely the clamped
requested value, for every requested value and every style. -/
theorem C7_set_pressure_echo_roundtrip (v : Int) (style : String) :
    set_pressure (fun request => request) v style =
      .ok (set_pressure_clamped v style) := by
  have hb := clamp_bounds v style
  unfold set_pressure send_request set_pressure_request
  rw [header_concrete]
  rw [show ∀ tail : List Int, List.drop 7 ([0,0,0,0,0,6,1] ++ tail) = tail from
    fun _ => rfl]
  rw [decode_write_pdu _ _ _ _ _ (Or.inl rfl)]
  rw [except_bind_ok]
  exact u2s_bytes _ hb.1 hb.2

/-- C8: every style string other than the exact string Positive behaves
identically to Negative: it selects the Negative register or coil address
(0x0307 for `set_pressure`, 0x0201 for `is_pressure_launched`, 0x0101 for
`launch_pressure`) and the Negative clamping range `[-80, -10]`, and the
three operations compute exactly what they compute for style Negative; no
style value is rejected. -/
theorem C8_unknown_style_negative (style : String) (h : ¬ style = "Positive") :
    set_pressure_address style = 0x0307 ∧
    is_pressure_launched_address style = 0x0201 ∧
    launch_pressure_address style = 0x0101 ∧
    (∀ v : Int, set_pressure_clamped v style = max (-80) (min (-10) v)) ∧
    (∀ (t : List Int → List Int) (v : Int),
      set_pressure t v style = set_pressure t v ("Negative")) ∧
    (∀ t : List Int → List Int,
      is_pressure_launched t style = is_pressure_launched t ("Negative")) ∧
    (∀ (t : List Int → List Int) (state : String),
      launch_pressure t state style = launch_pressure t state ("Negative")) := by
  have hneg : ¬ ("Negative" : String) = "Positive" := by decide
  refine ⟨?_, ?_, ?_, ?_, ?_, ?_, ?_⟩
  · unfold set_pressure_address; rw [if_neg h]
  · unfold is_pressure_launched_address; rw [if_neg h]
  · unfold launch_pressure_address; rw [if_neg h]
  · intro v; unfold set_pressure_clamped; rw [if_neg h]
  · intro t v
    unfold set_pressure set_pressure_request set_pressure_address set_pressure_clamped
    rw [if_neg h, if_neg h, if_neg hneg, if_neg hneg]
  · intro t
    unfold is_pressure_launched is_pressure_launched_request is_pressure_launched_address
    rw [if_neg h, if_neg hneg]
  · intro t state
    unfold launch_pressure launch_pressure_request launch_pressure_address
    rw [if_neg h, if_neg hneg]

/-- Witness for C8 at the lowercase style string positive. -/
theorem C8_unknown_style_negative_witness :
    set_pressure_address ("positive") = 0x0307 ∧
    is_pressure_launched_address ("positive") = 0x0201 ∧
    launch_pressure_address ("positive") = 0x0101 ∧
    set_pressure_clamped 5 ("positive") = -10 := by
  have h := C8_unknown_style_negative ("positive") (by decide)
  exact ⟨h.1, h.2.1, h.2.2.1, by rw [h.2.2.2.1 5]; decide⟩

/-- C9: `launch_pressure` transmits coil value 0xFF00 exactly when the state
argument is the exact string ON and 0x0000 for every other state string
(including On, on and OFF); no state value is rejected: with an echoing
transport the call succeeds for every state and style, returning the
selected coil value. -/
theorem C9_launch_pressure_state_selection :
    (∀ style : String, (launch_pressure_request ("ON") style).drop 10 =
      [0xFF, 0x00]) ∧
    (∀ state style : String, ¬ state = "ON" →
      (launch_pressure_request state style).drop 10 = [0x00, 0x00]) ∧
    launch_pressure_value ("On") = 0 ∧
    launch_pressure_value ("on") = 0 ∧
    launch_pressure_value ("OFF") = 0 ∧
    (∀ state style : String,
      launch_pressure (fun request => request) state style =
        .ok (launch_pressure_value state)) := by
  refine ⟨?_, ?_, by decide, by decide, by decide, ?_⟩
  · intro style
    unfold launch_pressure_request
    rw [header_concrete]
    show [(launch_pressure_value ("ON") / 256) % 256,
      launch_pressure_value ("ON") % 256] = [0xFF, 0x00]
    decide
  · intro state style h
    unfold launch_pressure_request
    rw [header_concrete]
    show [(launch_pressure_value state / 256) % 256,
      launch_pressure_value state % 256] = [0x00, 0x00]
    unfold launch_pressure_value
    rw [if_neg h]
    decide
  · intro state style
    unfold launch_pressure send_request launch_pressure_request
    rw [header_concrete]
    rw [show ∀ tail : List Int, List.drop 7 ([0,0,0,0,0,6,1] ++ tail) = tail from
      fun _ => rfl]
    rw [decode_write_pdu _ _ _ _ _ (Or.inr rfl)]
    rw [except_bind_ok]
    rw [launch_value_bytes]

/-- Witness for C9 at the lowercase state string on. -/
theorem C9_launch_pressure_state_selection_witness :
    (launch_pressure_request ("on") ("Positive")).drop 10 = [0x00, 0x00] :=
  C9_launch_pressure_state_selection.2.1 ("on") ("Positive") (by decide)

/-- C10: `unsigned_to_signed_16bit` raises `ValueError` exactly when its
input exceeds 0xFFFF; every input at most 0x7FFF, including every negative
integer (there is no lower-bound check), is returned unchanged, and every
input in `[0x8000, 0xFFFF]` is returned as input minus 0x10000. -/
theorem C10_unsigned_to_signed_16bit_error_domain (v : Int) :
    (unsigned_to_signed_16bit v =
        .error (.valueError ("Value exceeds 16-bit unsigned integer range")) ↔
      0xFFFF < v) ∧
    (v ≤ 0x7FFF → unsigned_to_signed_16bit v = .ok v) ∧
    (0x8000 ≤ v → v ≤ 0xFFFF → unsigned_to_signed_16bit v = .ok (v - 0x10000)) := by
  refine ⟨?_, ?_, ?_⟩
  · unfold unsigned_to_signed_16bit
    split_ifs with hA hB <;> simp <;> omega
  · intro h; unfold unsigned_to_signed_16bit
    split_ifs <;> first | rfl | (exfalso; omega)
  · intro h1 h2; unfold unsigned_to_signed_16bit
    split_ifs <;> first | rfl | (exfalso; omega)

/-- Witness for C10 at the negative input -3 and at 40000. -/
theorem C10_unsigned_to_signed_16bit_error_domain_witness :
    unsigned_to_signed_16bit (-3) = .ok (-3) ∧
    unsigned_to_signed_16bit 40000 = .ok (40000 - 0x10000) :=
  ⟨(C10_unsigned_to_signed_16bit_error_domain (-3)).2.1 (by decide),
   (C10_unsigned_to_signed_16bit_error_domain 40000).2.2 (by decide) (by decide)⟩

end Rouchu
